import Mathlib

set_option maxRecDepth 40000
set_option maxHeartbeats 2000000

/-!
Verification development for the predefined-header synthesis stage of the
tcc front end, as vendored in `src/lib/tcc/vendor/tccdefs_.h`.

The source file is a sequence of C-string lines selected by host-level
preprocessor conditionals over the target configuration (`PTR_SIZE`,
`LONG_SIZE`, `TARGETOS_*`, `TCC_TARGET_*`, `TCC_ARM_EABI`).  We embed it
shallowly: a `TargetDescriptor` records the target facts, and
`emit : TargetDescriptor → List Frag` produces, in source order, one
structured fragment per emitted line (or per multi-line typedef), with the
replacement text kept verbatim (braces written with `\x7b`/`\x7d` escapes).

Identifiers occurring in a fragment's replacement text are interned in the
enumeration `CName` and recorded in each fragment's `uses` field (C keywords,
numeric literals, punctuation and a macro's own formal parameters are not
identifiers in this sense).  This supports the no-forward-reference analysis.

The helper macros `__RENAME`/`__BUILTINBC`/`__BOUND`/`__BOTH`/`__BUILTIN`/
`__MAYBE_REDIR` (source lines 234-254) are additionally given a direct
semantics (`RENAMEsem`, ..., `builtinDecls`) translating what each expands
to, so that claims about the post-expansion builtin declarations can be
stated.
-/

/-- Architecture family, per the `TCC_TARGET_*` host macros of the source. -/
inductive ArchFamily
  | i386
  | x86_64
  | arm
  | arm64
  | riscv64
deriving DecidableEq, Fintype

/-- OS family, per the `TARGETOS_*` / `TCC_TARGET_PE` / `TCC_TARGET_MACHO`
host macros.  The `#elif` chain of the source treats these as mutually
exclusive, which we mirror with an enumeration.  `freebsdKernel` is the
(empty) `TARGETOS_FreeBSD_kernel` branch. -/
inductive OSFamily
  | linux
  | windowsPE
  | macho
  | freebsd
  | freebsdKernel
  | netbsd
  | openbsd
  | android
deriving DecidableEq, Fintype

/-- A width in bytes, 4 or 8, for `PTR_SIZE` and `LONG_SIZE`. -/
inductive WidthBytes
  | w4
  | w8
deriving DecidableEq, Fintype

/-- The immutable record of target facts consumed by this stage.
Bounds checking (`__BOUNDS_CHECKING_ON`) and leading-underscore symbol
mangling (`__leading_underscore`) are tested by the *emitted* text's own
conditionals, not by host conditionals, so they are passed separately to
the expansion semantics rather than stored here. -/
structure TargetDescriptor where
  archFamily : ArchFamily
  osFamily : OSFamily
  pointerSize : WidthBytes
  longSize : WidthBytes
  armEabi : Bool
deriving DecidableEq, Fintype

/-- `TCC_TARGET_PE` holds exactly on the Windows/PE OS family. -/
def TargetDescriptor.pe (t : TargetDescriptor) : Bool :=
  t.osFamily = OSFamily.windowsPE

/-- Interned identifiers occurring in the emitted text (macro names, typedef
names, and other non-keyword identifiers referenced by replacement texts).
Leading underscores of the C spelling are dropped from the constructor
names; e.g. `SIZE_TYPE` stands for `__SIZE_TYPE__`, `va_list` for `va_list`,
`asmId` for `__asm__`, `alignofId` for `__alignof__`, `attribute1` for
`__attribute`, `attribute2` for `__attribute__`. -/
inductive CName
  | SIZE_TYPE
  | PTRDIFF_TYPE
  | ILP32
  | INT64_TYPE
  | LLP64
  | LP64
  | SIZEOF_INT
  | INT_MAX
  | LONG_MAX
  | SIZEOF_LONG_LONG
  | LONG_LONG_MAX
  | CHAR_BIT
  | ORDER_LITTLE_ENDIAN
  | ORDER_BIG_ENDIAN
  | BYTE_ORDER
  | WCHAR_TYPE
  | WINT_TYPE
  | STDC_VERSION
  | STDC_NO_ATOMICS
  | STDC_NO_COMPLEX
  | STDC_NO_THREADS
  | STDC_UTF_16
  | STDC_UTF_32
  | declspec
  | cdecl
  | attribute1
  | attribute2
  | GNUC
  | GNUC_MINOR
  | GNUC_PATCHLEVEL
  | GNUC_STDC_INLINE
  | NO_TLS
  | RUNETYPE_INTERNAL
  | int128_t
  | SIZEOF_SIZE_T
  | SIZEOF_PTRDIFF_T
  | dummyMember
  | alignedAttr
  | Pragma
  | ELF
  | LOCORE
  | ANSI_LIBRARY
  | APPLE_CC
  | LITTLE_ENDIAN
  | DONT_USE_CTYPE_INLINE
  | FINITE_MATH_ONLY
  | FORTIFY_SOURCE
  | BIONIC_IOCTL_NO_SIGNEDNESS_OVERLOAD
  | PRETTY_FUNCTION
  | FUNCTION
  | has_builtin
  | Nonnull
  | Nullable
  | UINTPTR_TYPE
  | INTPTR_TYPE
  | INT32_TYPE
  | REDIRECT
  | REDIRECT_NTH
  | asmId
  | THROW
  | TCC_PP
  | builtin_offsetof
  | builtin_extract_return_addr
  | builtin_huge_val
  | builtin_huge_valf
  | builtin_huge_vall
  | builtin_nanf
  | builtin_flt_rounds
  | builtin_bzero
  | bzero
  | builtin_va_list
  | va_arg_fn
  | builtin_va_start
  | builtin_va_arg
  | builtin_va_copy
  | builtin_va_end
  | builtin_frame_address
  | builtin_va_arg_types
  | alignofId
  | tcc_alignof
  | tcc_align
  | va_reg_size
  | riscv_xlen
  | va_list
  | leading_underscore
  | RENAME
  | BUILTINBC
  | BOUND
  | BOTH
  | BUILTIN
  | MAYBE_REDIR
  | BOUNDS_CHECKING_ON
  | memcpy
  | memmove
  | memset
  | memcmp
  | strlen
  | strcpy
  | strncpy
  | strcmp
  | strncmp
  | strcat
  | strncat
  | strchr
  | strrchr
  | strdup
  | aeabi_memcpy
  | aeabi_memmove
  | aeabi_memmove4
  | aeabi_memmove8
  | aeabi_memset
  | malloc
  | realloc
  | calloc
  | memalign
  | free
  | alloca
  | abortFn
  | longjmp
  | mmap
  | munmap
deriving DecidableEq, Fintype

/-- One emitted fragment (one line of the predefined-header text; a
multi-line `typedef` is one fragment).  `def0` is an object-like `#define`,
`defF` a function-like one; `ppIf`/`ppIfdef`/`ppIfndef`/`ppElse`/`ppEndif`/
`undef` are preprocessor directives of the *emitted* text itself; `typedefFrag`
is a typedef introducing a type name; `declFrag` is any other declaration
line (kept as raw text), with `declares` the function names it declares.
`uses` lists the interned identifiers *referenced* by the replacement or
declaration text: names being introduced by the fragment itself, C keywords,
a function-like macro's own formal parameters, numeric literals and
punctuation are not uses. -/
inductive Frag
  | def0 (name : CName) (body : String) (uses : List CName)
  | defF (name : CName) (params : List String) (body : String) (uses : List CName)
  | undef (name : CName)
  | ppIf (test : String) (uses : List CName)
  | ppIfdef (name : CName)
  | ppIfndef (name : CName)
  | ppElse
  | ppEndif
  | typedefFrag (name : CName) (body : String) (uses : List CName)
  | declFrag (text : String) (declares : List CName) (uses : List CName)
deriving DecidableEq

/-- Source lines 19-46: the fundamental-type decision chain
`#if PTR_SIZE == 4` / `#elif LONG_SIZE == 4` / `#else`, with the OpenBSD
and Linux sub-branches. -/
def sizeTypeFrags (ptr lng : WidthBytes) (os : OSFamily) : List Frag :=
  if ptr = WidthBytes.w4 then
    (if os = OSFamily.openbsd then
      [Frag.def0 CName.SIZE_TYPE "unsigned long" [],
       Frag.def0 CName.PTRDIFF_TYPE "long" []]
     else
      [Frag.def0 CName.SIZE_TYPE "unsigned int" [],
       Frag.def0 CName.PTRDIFF_TYPE "int" []])
    ++ [Frag.def0 CName.ILP32 "1" [],
        Frag.def0 CName.INT64_TYPE "long long" []]
  else if lng = WidthBytes.w4 then
    [Frag.def0 CName.SIZE_TYPE "unsigned long long" [],
     Frag.def0 CName.PTRDIFF_TYPE "long long" [],
     Frag.def0 CName.LLP64 "1" [],
     Frag.def0 CName.INT64_TYPE "long long" []]
  else
    [Frag.def0 CName.SIZE_TYPE "unsigned long" [],
     Frag.def0 CName.PTRDIFF_TYPE "long" [],
     Frag.def0 CName.LP64 "1" []]
    ++ (if os = OSFamily.linux then
          [Frag.def0 CName.INT64_TYPE "long" []]
        else
          [Frag.def0 CName.INT64_TYPE "long long" []])

/-- Source lines 47-69: size/limit macros, byte order, wide-char types. -/
def intLimitFrags (lng : WidthBytes) (os : OSFamily) : List Frag :=
  [Frag.def0 CName.SIZEOF_INT "4" [],
   Frag.def0 CName.INT_MAX "0x7fffffff" []]
  ++ (if lng = WidthBytes.w4 then
        [Frag.def0 CName.LONG_MAX "0x7fffffffL" []]
      else
        [Frag.def0 CName.LONG_MAX "0x7fffffffffffffffL" []])
  ++ [Frag.def0 CName.SIZEOF_LONG_LONG "8" [],
      Frag.def0 CName.LONG_LONG_MAX "0x7fffffffffffffffLL" [],
      Frag.def0 CName.CHAR_BIT "8" [],
      Frag.def0 CName.ORDER_LITTLE_ENDIAN "1234" [],
      Frag.def0 CName.ORDER_BIG_ENDIAN "4321" [],
      Frag.def0 CName.BYTE_ORDER "__ORDER_LITTLE_ENDIAN__" [CName.ORDER_LITTLE_ENDIAN]]
  ++ (if os = OSFamily.windowsPE then
        [Frag.def0 CName.WCHAR_TYPE "unsigned short" [],
         Frag.def0 CName.WINT_TYPE "unsigned short" []]
      else if os = OSFamily.linux then
        [Frag.def0 CName.WCHAR_TYPE "int" [],
         Frag.def0 CName.WINT_TYPE "unsigned int" []]
      else
        [Frag.def0 CName.WCHAR_TYPE "int" [],
         Frag.def0 CName.WINT_TYPE "int" []])

/-- Source lines 71-79: the strict-C11 block, a conditional of the emitted
text itself (`#if __STDC_VERSION__==201112L`), with the UTF macros omitted
on PE by a host-level conditional. -/
def stdcFrags (os : OSFamily) : List Frag :=
  [Frag.ppIf "__STDC_VERSION__==201112L" [CName.STDC_VERSION]]
  ++ ([Frag.def0 CName.STDC_NO_ATOMICS "1" [],
       Frag.def0 CName.STDC_NO_COMPLEX "1" [],
       Frag.def0 CName.STDC_NO_THREADS "1" []]
      ++ (if os = OSFamily.windowsPE then []
          else [Frag.def0 CName.STDC_UTF_16 "1" [],
                Frag.def0 CName.STDC_UTF_32 "1" []]))
  ++ [Frag.ppEndif]

/-- Source lines 81-138: the per-OS identity-spoofing blocks. -/
def osSpoofFrags (os : OSFamily) (ptr : WidthBytes) (arch : ArchFamily) : List Frag :=
  match os with
  | OSFamily.windowsPE =>
      [Frag.defF CName.declspec ["x"] "__attribute__((x))" [CName.attribute2],
       Frag.def0 CName.cdecl "" []]
  | OSFamily.freebsd =>
      [Frag.def0 CName.GNUC "9" [],
       Frag.def0 CName.GNUC_MINOR "3" [],
       Frag.def0 CName.GNUC_PATCHLEVEL "0" [],
       Frag.def0 CName.GNUC_STDC_INLINE "1" [],
       Frag.def0 CName.NO_TLS "1" [],
       Frag.def0 CName.RUNETYPE_INTERNAL "1" []]
      ++ (if ptr = WidthBytes.w8 then
            [Frag.def0 CName.int128_t
               "struct\x7bunsigned char _dummy[16]__attribute((aligned(16)));\x7d"
               [CName.dummyMember, CName.attribute1, CName.alignedAttr],
             Frag.def0 CName.SIZEOF_SIZE_T "8" [],
             Frag.def0 CName.SIZEOF_PTRDIFF_T "8" []]
          else
            [Frag.def0 CName.SIZEOF_SIZE_T "4" [],
             Frag.def0 CName.SIZEOF_PTRDIFF_T "4" []])
  | OSFamily.freebsdKernel => []
  | OSFamily.netbsd =>
      [Frag.def0 CName.GNUC "4" [],
       Frag.def0 CName.GNUC_MINOR "1" [],
       Frag.def0 CName.GNUC_PATCHLEVEL "0" [],
       Frag.defF CName.Pragma ["x"] "" [],
       Frag.def0 CName.ELF "1" []]
      ++ (if arch = ArchFamily.arm64 then
            [Frag.def0 CName.LOCORE "" []]
          else [])
  | OSFamily.openbsd =>
      [Frag.def0 CName.GNUC "4" [],
       Frag.def0 CName.ANSI_LIBRARY "1" []]
  | OSFamily.macho =>
      [Frag.def0 CName.GNUC "4" [],
       Frag.def0 CName.APPLE_CC "1" [],
       Frag.def0 CName.LITTLE_ENDIAN "1" [],
       Frag.def0 CName.DONT_USE_CTYPE_INLINE "1" [],
       Frag.def0 CName.FINITE_MATH_ONLY "1" [],
       Frag.def0 CName.FORTIFY_SOURCE "0" []]
  | OSFamily.android =>
      [Frag.def0 CName.BIONIC_IOCTL_NO_SIGNEDNESS_OVERLOAD "" [],
       Frag.def0 CName.PRETTY_FUNCTION "__FUNCTION__" [CName.FUNCTION],
       Frag.defF CName.has_builtin ["x"] "0" [],
       Frag.def0 CName.Nonnull "" [],
       Frag.def0 CName.Nullable "" []]
  | OSFamily.linux => []

/-- Source lines 139-150: derived pointer-sized integer types (omitted on
NetBSD by the host-level `#ifndef TARGETOS_NetBSD`), `__INT32_TYPE__`, and
the glibc `__REDIRECT` helpers on non-PE targets. -/
def derivedFrags (os : OSFamily) : List Frag :=
  (if os = OSFamily.netbsd then []
   else
     [Frag.def0 CName.UINTPTR_TYPE "unsigned __PTRDIFF_TYPE__" [CName.PTRDIFF_TYPE],
      Frag.def0 CName.INTPTR_TYPE "__PTRDIFF_TYPE__" [CName.PTRDIFF_TYPE]])
  ++ [Frag.def0 CName.INT32_TYPE "int" []]
  ++ (if os = OSFamily.windowsPE then []
      else
        [Frag.defF CName.REDIRECT ["name", "proto", "alias"]
           "name proto __asm__(#alias)" [CName.asmId],
         Frag.defF CName.REDIRECT_NTH ["name", "proto", "alias"]
           "name proto __asm__(#alias)__THROW" [CName.asmId, CName.THROW]])

/-- Source lines 155-171: builtin function-like macros (offsetof etc.),
with the huge-val/nan block on targets that are neither Linux nor PE and a
Mach-O-specific extension of it. -/
def builtinMacroFrags (os : OSFamily) : List Frag :=
  [Frag.defF CName.builtin_offsetof ["type", "field"]
     "((__SIZE_TYPE__)&((type*)0)->field)" [CName.SIZE_TYPE],
   Frag.defF CName.builtin_extract_return_addr ["x"] "x" []]
  ++ (if os = OSFamily.linux ∨ os = OSFamily.windowsPE then []
      else
        [Frag.defF CName.builtin_huge_val [] "1e500" [],
         Frag.defF CName.builtin_huge_valf [] "1e50f" [],
         Frag.defF CName.builtin_huge_vall [] "1e5000L" []]
        ++ (if os = OSFamily.macho then
              [Frag.defF CName.builtin_nanf ["ignored_string"] "(0.0F/0.0F)" [],
               Frag.defF CName.builtin_flt_rounds [] "1" [],
               Frag.defF CName.builtin_bzero ["p", "ignored_size"]
                 "bzero(p,sizeof(*(p)))" [CName.bzero]]
            else
              [Frag.defF CName.builtin_nanf ["ignored_string"] "(0.0F/0.0F)" []]))

/-- Source lines 173-232: the per-architecture `__builtin_va_list` typedef
and variadic-access macros, then the common `va_end` and the
`#ifndef`-guarded `va_copy` fallback. -/
def vaAbiFrags (arch : ArchFamily) (os : OSFamily) : List Frag :=
  (match arch with
   | ArchFamily.x86_64 =>
     if os = OSFamily.windowsPE then
       [Frag.typedefFrag CName.builtin_va_list "char*" [],
        Frag.defF CName.builtin_va_arg ["ap", "t"]
          "((sizeof(t)>8||(sizeof(t)&(sizeof(t)-1)))?**(t**)((ap+=8)-8):*(t*)((ap+=8)-8))"
          []]
     else
       [Frag.typedefFrag CName.builtin_va_list
          "struct\x7bunsigned gp_offset,fp_offset;union\x7bunsigned overflow_offset;char*overflow_arg_area;\x7d;char*reg_save_area;\x7d[1]"
          [],
        Frag.declFrag "void*__va_arg(__builtin_va_list ap,int arg_type,int size,int align);"
          [CName.va_arg_fn] [CName.builtin_va_list],
        Frag.defF CName.builtin_va_start ["ap", "last"]
          "(*(ap)=*(__builtin_va_list)((char*)__builtin_frame_address(0)-24))"
          [CName.builtin_va_list, CName.builtin_frame_address],
        Frag.defF CName.builtin_va_arg ["ap", "t"]
          "(*(t*)(__va_arg(ap,__builtin_va_arg_types(t),sizeof(t),__alignof__(t))))"
          [CName.va_arg_fn, CName.builtin_va_arg_types, CName.alignofId],
        Frag.defF CName.builtin_va_copy ["dest", "src"] "(*(dest)=*(src))" []]
   | ArchFamily.arm =>
       [Frag.typedefFrag CName.builtin_va_list "char*" [],
        Frag.defF CName.tcc_alignof ["type"]
          "((int)&((struct\x7bchar c;type x;\x7d*)0)->x)" [],
        Frag.defF CName.tcc_align ["addr", "type"]
          "(((unsigned)addr+_tcc_alignof(type)-1)&~(_tcc_alignof(type)-1))"
          [CName.tcc_alignof],
        Frag.defF CName.builtin_va_start ["ap", "last"]
          "(ap=((char*)&(last))+((sizeof(last)+3)&~3))" [],
        Frag.defF CName.builtin_va_arg ["ap", "type"]
          "(ap=(void*)((_tcc_align(ap,type)+sizeof(type)+3)&~3),*(type*)(ap-((sizeof(type)+3)&~3)))"
          [CName.tcc_align]]
   | ArchFamily.arm64 =>
     if os = OSFamily.macho then
       [Frag.typedefFrag CName.builtin_va_list "struct\x7bvoid*__stack;\x7d" []]
     else
       [Frag.typedefFrag CName.builtin_va_list
          "struct\x7bvoid*__stack,*__gr_top,*__vr_top;int __gr_offs,__vr_offs;\x7d"
          []]
   | ArchFamily.riscv64 =>
       [Frag.typedefFrag CName.builtin_va_list "char*" [],
        Frag.def0 CName.va_reg_size "(__riscv_xlen>>3)" [CName.riscv_xlen],
        Frag.defF CName.tcc_align ["addr", "type"]
          "(((unsigned long)addr+__alignof__(type)-1)&-(__alignof__(type)))"
          [CName.alignofId],
        Frag.defF CName.builtin_va_arg ["ap", "type"]
          "(*(sizeof(type)>(2*__va_reg_size)?*(type**)((ap+=__va_reg_size)-__va_reg_size):(ap=(va_list)(_tcc_align(ap,type)+(sizeof(type)+__va_reg_size-1)&-__va_reg_size),(type*)(ap-((sizeof(type)+__va_reg_size-1)&-__va_reg_size)))))"
          [CName.va_reg_size, CName.va_list, CName.tcc_align]]
   | ArchFamily.i386 =>
       [Frag.typedefFrag CName.builtin_va_list "char*" [],
        Frag.defF CName.builtin_va_start ["ap", "last"]
          "(ap=((char*)&(last))+((sizeof(last)+3)&~3))" [],
        Frag.defF CName.builtin_va_arg ["ap", "t"]
          "(*(t*)((ap+=(sizeof(t)+3)&~3)-((sizeof(t)+3)&~3)))" []])
  ++ [Frag.defF CName.builtin_va_end ["ap"] "(void)(ap)" [],
      Frag.ppIfndef CName.builtin_va_copy,
      Frag.defF CName.builtin_va_copy ["dest", "src"] "(dest)=(src)" [],
      Frag.ppEndif]

/-- Source lines 234-254: the `__RENAME` / bounds-alias helper macro
definitions.  The `__leading_underscore` and `__BOUNDS_CHECKING_ON` tests
are conditionals of the emitted text; the PE/non-PE split is host-level. -/
def helperFrags (os : OSFamily) : List Frag :=
  [Frag.ppIfdef CName.leading_underscore,
   Frag.defF CName.RENAME ["X"] "__asm__(\"_\"X)" [CName.asmId],
   Frag.ppElse,
   Frag.defF CName.RENAME ["X"] "__asm__(X)" [CName.asmId],
   Frag.ppEndif,
   Frag.ppIfdef CName.BOUNDS_CHECKING_ON,
   Frag.defF CName.BUILTINBC ["ret", "name", "params"]
     "ret __builtin_##name params __RENAME(\"__bound_\"#name);" [CName.RENAME],
   Frag.defF CName.BOUND ["ret", "name", "params"]
     "ret name params __RENAME(\"__bound_\"#name);" [CName.RENAME],
   Frag.ppElse,
   Frag.defF CName.BUILTINBC ["ret", "name", "params"]
     "ret __builtin_##name params __RENAME(#name);" [CName.RENAME],
   Frag.defF CName.BOUND ["ret", "name", "params"] "" [],
   Frag.ppEndif]
  ++ (if os = OSFamily.windowsPE then
        [Frag.def0 CName.BOTH "__BOUND" [CName.BOUND],
         Frag.defF CName.BUILTIN ["ret", "name", "params"] "" []]
      else
        [Frag.defF CName.BOTH ["ret", "name", "params"]
           "__BUILTINBC(ret,name,params)__BOUND(ret,name,params)"
           [CName.BUILTINBC, CName.BOUND],
         Frag.defF CName.BUILTIN ["ret", "name", "params"]
           "ret __builtin_##name params __RENAME(#name);" [CName.RENAME]])

/-- Source lines 256-298: the builtin declaration table (helper-macro
invocation lines), with the ARM-EABI, malloc-redirection, alloca, and
non-PE mmap host-level conditionals. -/
def builtinTableFrags (os : OSFamily) (arch : ArchFamily) (eabi : Bool) : List Frag :=
  [Frag.declFrag "__BOTH(void*,memcpy,(void*,const void*,__SIZE_TYPE__))"
     [CName.memcpy] [CName.BOTH, CName.SIZE_TYPE],
   Frag.declFrag "__BOTH(void*,memmove,(void*,const void*,__SIZE_TYPE__))"
     [CName.memmove] [CName.BOTH, CName.SIZE_TYPE],
   Frag.declFrag "__BOTH(void*,memset,(void*,int,__SIZE_TYPE__))"
     [CName.memset] [CName.BOTH, CName.SIZE_TYPE],
   Frag.declFrag "__BOTH(int,memcmp,(const void*,const void*,__SIZE_TYPE__))"
     [CName.memcmp] [CName.BOTH, CName.SIZE_TYPE],
   Frag.declFrag "__BOTH(__SIZE_TYPE__,strlen,(const char*))"
     [CName.strlen] [CName.BOTH, CName.SIZE_TYPE],
   Frag.declFrag "__BOTH(char*,strcpy,(char*,const char*))"
     [CName.strcpy] [CName.BOTH],
   Frag.declFrag "__BOTH(char*,strncpy,(char*,const char*,__SIZE_TYPE__))"
     [CName.strncpy] [CName.BOTH, CName.SIZE_TYPE],
   Frag.declFrag "__BOTH(int,strcmp,(const char*,const char*))"
     [CName.strcmp] [CName.BOTH],
   Frag.declFrag "__BOTH(int,strncmp,(const char*,const char*,__SIZE_TYPE__))"
     [CName.strncmp] [CName.BOTH, CName.SIZE_TYPE],
   Frag.declFrag "__BOTH(char*,strcat,(char*,const char*))"
     [CName.strcat] [CName.BOTH],
   Frag.declFrag "__BOTH(char*,strncat,(char*,const char*,__SIZE_TYPE__))"
     [CName.strncat] [CName.BOTH, CName.SIZE_TYPE],
   Frag.declFrag "__BOTH(char*,strchr,(const char*,int))"
     [CName.strchr] [CName.BOTH],
   Frag.declFrag "__BOTH(char*,strrchr,(const char*,int))"
     [CName.strrchr] [CName.BOTH],
   Frag.declFrag "__BOTH(char*,strdup,(const char*))"
     [CName.strdup] [CName.BOTH]]
  ++ (if eabi then
        [Frag.declFrag "__BOUND(void*,__aeabi_memcpy,(void*,const void*,__SIZE_TYPE__))"
           [CName.aeabi_memcpy] [CName.BOUND, CName.SIZE_TYPE],
         Frag.declFrag "__BOUND(void*,__aeabi_memmove,(void*,const void*,__SIZE_TYPE__))"
           [CName.aeabi_memmove] [CName.BOUND, CName.SIZE_TYPE],
         Frag.declFrag "__BOUND(void*,__aeabi_memmove4,(void*,const void*,__SIZE_TYPE__))"
           [CName.aeabi_memmove4] [CName.BOUND, CName.SIZE_TYPE],
         Frag.declFrag "__BOUND(void*,__aeabi_memmove8,(void*,const void*,__SIZE_TYPE__))"
           [CName.aeabi_memmove8] [CName.BOUND, CName.SIZE_TYPE],
         Frag.declFrag "__BOUND(void*,__aeabi_memset,(void*,int,__SIZE_TYPE__))"
           [CName.aeabi_memset] [CName.BOUND, CName.SIZE_TYPE]]
      else [])
  ++ (if os = OSFamily.linux ∨ os = OSFamily.macho then
        [Frag.def0 CName.MAYBE_REDIR "__BUILTIN" [CName.BUILTIN]]
      else
        [Frag.def0 CName.MAYBE_REDIR "__BOTH" [CName.BOTH]])
  ++ [Frag.declFrag "__MAYBE_REDIR(void*,malloc,(__SIZE_TYPE__))"
        [CName.malloc] [CName.MAYBE_REDIR, CName.SIZE_TYPE],
      Frag.declFrag "__MAYBE_REDIR(void*,realloc,(void*,__SIZE_TYPE__))"
        [CName.realloc] [CName.MAYBE_REDIR, CName.SIZE_TYPE],
      Frag.declFrag "__MAYBE_REDIR(void*,calloc,(__SIZE_TYPE__,__SIZE_TYPE__))"
        [CName.calloc] [CName.MAYBE_REDIR, CName.SIZE_TYPE],
      Frag.declFrag "__MAYBE_REDIR(void*,memalign,(__SIZE_TYPE__,__SIZE_TYPE__))"
        [CName.memalign] [CName.MAYBE_REDIR, CName.SIZE_TYPE],
      Frag.declFrag "__MAYBE_REDIR(void,free,(void*))"
        [CName.free] [CName.MAYBE_REDIR]]
  ++ (if arch = ArchFamily.i386 ∨ arch = ArchFamily.x86_64 then
        [Frag.declFrag "__BOTH(void*,alloca,(__SIZE_TYPE__))"
           [CName.alloca] [CName.BOTH, CName.SIZE_TYPE]]
      else
        [Frag.declFrag "__BUILTIN(void*,alloca,(__SIZE_TYPE__))"
           [CName.alloca] [CName.BUILTIN, CName.SIZE_TYPE]])
  ++ [Frag.declFrag "__BUILTIN(void,abort,(void))" [CName.abortFn] [CName.BUILTIN],
      Frag.declFrag "__BOUND(void,longjmp,())" [CName.longjmp] [CName.BOUND]]
  ++ (if os = OSFamily.windowsPE then []
      else
        [Frag.declFrag "__BOUND(void*,mmap,())" [CName.mmap] [CName.BOUND],
         Frag.declFrag "__BOUND(int,munmap,())" [CName.munmap] [CName.BOUND]])

/-- Source lines 299-304: the helper-macro cleanup. -/
def undefFrags : List Frag :=
  [Frag.undef CName.BUILTINBC,
   Frag.undef CName.BUILTIN,
   Frag.undef CName.BOUND,
   Frag.undef CName.BOTH,
   Frag.undef CName.MAYBE_REDIR,
   Frag.undef CName.RENAME]

/-- All fragments before the cleanup `#undef`s and the closing `#endif`:
source lines 19 through 298, in source order.  The `#ifndef __TCC_PP__`
guard (line 153) opens before the builtin macros. -/
def emitCore (t : TargetDescriptor) : List Frag :=
  sizeTypeFrags t.pointerSize t.longSize t.osFamily
  ++ intLimitFrags t.longSize t.osFamily
  ++ stdcFrags t.osFamily
  ++ osSpoofFrags t.osFamily t.pointerSize t.archFamily
  ++ derivedFrags t.osFamily
  ++ [Frag.ppIfndef CName.TCC_PP]
  ++ builtinMacroFrags t.osFamily
  ++ vaAbiFrags t.archFamily t.osFamily
  ++ helperFrags t.osFamily
  ++ builtinTableFrags t.osFamily t.archFamily t.armEabi

/-- The full emitted predefined-header text, in source order; the final
`#endif` (line 306) closes the `__TCC_PP__` guard. -/
def emit (t : TargetDescriptor) : List Frag :=
  emitCore t ++ undefFrags ++ [Frag.ppEndif]

/-- The macro or typedef name a fragment defines, if any (`#define`s and
`typedef`s; an `#undef` or a plain declaration defines no macro). -/
def fragDefines : Frag → Option CName
  | Frag.def0 n _ _ => some n
  | Frag.defF n _ _ _ => some n
  | Frag.typedefFrag n _ _ => some n
  | _ => none

/-- All identifiers a fragment introduces into the environment: macro and
typedef names plus declared function names. -/
def fragIntroduces : Frag → List CName
  | Frag.def0 n _ _ => [n]
  | Frag.defF n _ _ _ => [n]
  | Frag.typedefFrag n _ _ => [n]
  | Frag.declFrag _ ds _ => ds
  | _ => []

/-- The interned identifiers a fragment's replacement/declaration text
references. -/
def fragUses : Frag → List CName
  | Frag.def0 _ _ u => u
  | Frag.defF _ _ _ u => u
  | Frag.ppIf _ u => u
  | Frag.typedefFrag _ _ u => u
  | Frag.declFrag _ _ u => u
  | _ => []

/-- How many fragments of `fs` define the macro/typedef name `n`. -/
def defCount (fs : List Frag) (n : CName) : Nat :=
  (fs.filter (fun f => fragDefines f = some n)).length

/-- The replacement texts of all object-like `#define`s of `n` in `fs`,
in order. -/
def defBodies (fs : List Frag) (n : CName) : List String :=
  fs.filterMap (fun f =>
    match f with
    | Frag.def0 m b _ => if m = n then some b else none
    | _ => none)

/-- One step of macro-definedness tracking for the name `n`: a `#define`
of `n` sets it, an `#undef` of `n` clears it; typedefs and declarations do
not create macros. -/
def macroStep (n : CName) (st : Bool) (f : Frag) : Bool :=
  match f with
  | Frag.def0 m _ _ => if m = n then true else st
  | Frag.defF m _ _ _ => if m = n then true else st
  | Frag.undef m => if m = n then false else st
  | _ => st

/-- Whether the macro `n` is defined after the whole fragment list has been
processed top to bottom. -/
def definedAtEnd (fs : List Frag) (n : CName) : Bool :=
  fs.foldl (macroStep n) false

/-- The six helper macro names of the bounds-alias block. -/
def helperMacroNames : List CName :=
  [CName.BUILTINBC, CName.BUILTIN, CName.BOUND, CName.BOTH, CName.MAYBE_REDIR,
   CName.RENAME]

/-- Identifiers the emitted text references but expects from the environment
(compiler builtins, reserved attribute/asm keywords, the host include files):
`__STDC_VERSION__`, `__attribute`/`__attribute__`, the `_dummy`/`aligned`
tokens of the FreeBSD `__int128_t` body, `__FUNCTION__`, `__asm__`,
`__THROW`, `bzero`, `__builtin_frame_address`, `__builtin_va_arg_types`,
`__alignof__`, `__riscv_xlen`, and the typedef name `va_list` (supplied by
`stdarg.h` after this text, referenced by the RISCV64 `__builtin_va_arg`
replacement). -/
def environmentNames : List CName :=
  [CName.STDC_VERSION, CName.attribute1, CName.attribute2, CName.dummyMember,
   CName.alignedAttr, CName.FUNCTION, CName.asmId, CName.THROW, CName.bzero,
   CName.builtin_frame_address, CName.builtin_va_arg_types, CName.alignofId,
   CName.riscv_xlen, CName.va_list]

/-- Extend the set of already-introduced names with what a fragment
introduces. -/
def pushDef (f : Frag) (seen : List CName) : List CName :=
  fragIntroduces f ++ seen

/-- Top-to-bottom scan: every identifier referenced by a fragment must be an
environment name or have been introduced by an earlier fragment. -/
def scanFrom (seen : List CName) : List Frag → Bool
  | [] => true
  | f :: rest =>
      (fragUses f).all (fun n => decide (n ∈ environmentNames) || decide (n ∈ seen))
      && scanFrom (pushDef f seen) rest

/-- No forward references: scanning the emitted text top to bottom starting
from an empty environment-extension, every referenced identifier is either
one of the `environmentNames` or was introduced earlier in the text. -/
def noForwardRef (fs : List Frag) : Bool :=
  scanFrom [] fs

/-- The names a fragment list introduces, in order. -/
def introducedNames (fs : List Frag) : List CName :=
  fs.flatMap fragIntroduces

/-- The emitted text never introduces any of the `environmentNames` itself. -/
def environmentDisjoint (fs : List Frag) : Bool :=
  (introducedNames fs).all (fun n => decide (n ∉ environmentNames))

/-- One post-expansion builtin declaration: `ret declName params __asm__("asmName");`. -/
structure BDecl where
  ret : String
  declName : String
  params : String
  asmName : String
deriving DecidableEq

/-- Expansion of `__RENAME(X)` (source lines 235-239): prepends `_` to the
symbol when `__leading_underscore` is defined. -/
def RENAMEsem (lead : Bool) (x : String) : String :=
  if lead then "_" ++ x else x

/-- Expansion of `__BUILTINBC(ret,name,params)` (source lines 242 and 245):
declares `__builtin_<name>` bound to `__bound_<name>` when
`__BOUNDS_CHECKING_ON` is defined, else bound to `<name>`. -/
def BUILTINBCsem (bc lead : Bool) (ret name params : String) : List BDecl :=
  if bc then [⟨ret, "__builtin_" ++ name, params, RENAMEsem lead ("__bound_" ++ name)⟩]
  else [⟨ret, "__builtin_" ++ name, params, RENAMEsem lead name⟩]

/-- Expansion of `__BOUND(ret,name,params)` (source lines 243 and 246):
declares `<name>` bound to `__bound_<name>` when `__BOUNDS_CHECKING_ON` is
defined, else expands to nothing. -/
def BOUNDsem (bc lead : Bool) (ret name params : String) : List BDecl :=
  if bc then [⟨ret, name, params, RENAMEsem lead ("__bound_" ++ name)⟩] else []

/-- Expansion of `__BOTH` (source lines 249 and 252): on PE it is `__BOUND`;
elsewhere it is `__BUILTINBC` followed by `__BOUND`. -/
def BOTHsem (pe bc lead : Bool) (ret name params : String) : List BDecl :=
  if pe then BOUNDsem bc lead ret name params
  else BUILTINBCsem bc lead ret name params ++ BOUNDsem bc lead ret name params

/-- Expansion of `__BUILTIN(ret,name,params)` (source lines 250 and 253): on
PE it expands to nothing; elsewhere it declares `__builtin_<name>` bound to
`<name>`. -/
def BUILTINsem (pe lead : Bool) (ret name params : String) : List BDecl :=
  if pe then [] else [⟨ret, "__builtin_" ++ name, params, RENAMEsem lead name⟩]

/-- Expansion of `__MAYBE_REDIR` (source lines 278-282): `__BUILTIN` when the
target OS is Linux or Mach-O (`HAVE MALLOC_REDIR`), else `__BOTH`. -/
def MAYBE_REDIRsem (mallocRedir pe bc lead : Bool) (ret name params : String) : List BDecl :=
  if mallocRedir then BUILTINsem pe lead ret name params
  else BOTHsem pe bc lead ret name params

/-- Whether the target has native malloc redirection (source line 278). -/
def mallocRedir (os : OSFamily) : Bool :=
  os = OSFamily.linux ∨ os = OSFamily.macho

/-- The post-expansion builtin declaration list produced by the declaration
table (source lines 256-298), for bounds-checking state `bc` and
leading-underscore state `lead`. -/
def builtinDecls (arch : ArchFamily) (os : OSFamily) (eabi : Bool) (bc lead : Bool) : List BDecl :=
  BOTHsem (os = OSFamily.windowsPE) bc lead "void*" "memcpy" "(void*,const void*,__SIZE_TYPE__)"
  ++ BOTHsem (os = OSFamily.windowsPE) bc lead "void*" "memmove" "(void*,const void*,__SIZE_TYPE__)"
  ++ BOTHsem (os = OSFamily.windowsPE) bc lead "void*" "memset" "(void*,int,__SIZE_TYPE__)"
  ++ BOTHsem (os = OSFamily.windowsPE) bc lead "int" "memcmp" "(const void*,const void*,__SIZE_TYPE__)"
  ++ BOTHsem (os = OSFamily.windowsPE) bc lead "__SIZE_TYPE__" "strlen" "(const char*)"
  ++ BOTHsem (os = OSFamily.windowsPE) bc lead "char*" "strcpy" "(char*,const char*)"
  ++ BOTHsem (os = OSFamily.windowsPE) bc lead "char*" "strncpy" "(char*,const char*,__SIZE_TYPE__)"
  ++ BOTHsem (os = OSFamily.windowsPE) bc lead "int" "strcmp" "(const char*,const char*)"
  ++ BOTHsem (os = OSFamily.windowsPE) bc lead "int" "strncmp" "(const char*,const char*,__SIZE_TYPE__)"
  ++ BOTHsem (os = OSFamily.windowsPE) bc lead "char*" "strcat" "(char*,const char*)"
  ++ BOTHsem (os = OSFamily.windowsPE) bc lead "char*" "strncat" "(char*,const char*,__SIZE_TYPE__)"
  ++ BOTHsem (os = OSFamily.windowsPE) bc lead "char*" "strchr" "(const char*,int)"
  ++ BOTHsem (os = OSFamily.windowsPE) bc lead "char*" "strrchr" "(const char*,int)"
  ++ BOTHsem (os = OSFamily.windowsPE) bc lead "char*" "strdup" "(const char*)"
  ++ (if eabi then
        BOUNDsem bc lead "void*" "__aeabi_memcpy" "(void*,const void*,__SIZE_TYPE__)"
        ++ BOUNDsem bc lead "void*" "__aeabi_memmove" "(void*,const void*,__SIZE_TYPE__)"
        ++ BOUNDsem bc lead "void*" "__aeabi_memmove4" "(void*,const void*,__SIZE_TYPE__)"
        ++ BOUNDsem bc lead "void*" "__aeabi_memmove8" "(void*,const void*,__SIZE_TYPE__)"
        ++ BOUNDsem bc lead "void*" "__aeabi_memset" "(void*,int,__SIZE_TYPE__)"
      else [])
  ++ MAYBE_REDIRsem (mallocRedir os) (os = OSFamily.windowsPE) bc lead "void*" "malloc" "(__SIZE_TYPE__)"
  ++ MAYBE_REDIRsem (mallocRedir os) (os = OSFamily.windowsPE) bc lead "void*" "realloc" "(void*,__SIZE_TYPE__)"
  ++ MAYBE_REDIRsem (mallocRedir os) (os = OSFamily.windowsPE) bc lead "void*" "calloc" "(__SIZE_TYPE__,__SIZE_TYPE__)"
  ++ MAYBE_REDIRsem (mallocRedir os) (os = OSFamily.windowsPE) bc lead "void*" "memalign" "(__SIZE_TYPE__,__SIZE_TYPE__)"
  ++ MAYBE_REDIRsem (mallocRedir os) (os = OSFamily.windowsPE) bc lead "void" "free" "(void*)"
  ++ (if arch = ArchFamily.i386 ∨ arch = ArchFamily.x86_64 then
        BOTHsem (os = OSFamily.windowsPE) bc lead "void*" "alloca" "(__SIZE_TYPE__)"
      else
        BUILTINsem (os = OSFamily.windowsPE) lead "void*" "alloca" "(__SIZE_TYPE__)")
  ++ BUILTINsem (os = OSFamily.windowsPE) lead "void" "abort" "(void)"
  ++ BOUNDsem bc lead "void" "longjmp" "()"
  ++ (if os = OSFamily.windowsPE then []
      else
        BOUNDsem bc lead "void*" "mmap" "()"
        ++ BOUNDsem bc lead "int" "munmap" "()")

/-- The declarations whose declared name is `malloc` or `__builtin_malloc`. -/
def mallocDecls (arch : ArchFamily) (os : OSFamily) (eabi : Bool) (bc lead : Bool) : List BDecl :=
  (builtinDecls arch os eabi bc lead).filter
    (fun d => d.declName = "malloc" ∨ d.declName = "__builtin_malloc")

/-- Spec-side description (spec section 4.2, rule evaluated first-match):
the replacement text of `__SIZE_TYPE__`. -/
def specSizeType (ptr lng : WidthBytes) (os : OSFamily) : String :=
  if ptr = WidthBytes.w4 then
    (if os = OSFamily.openbsd then "unsigned long" else "unsigned int")
  else if lng = WidthBytes.w4 then "unsigned long long"
  else "unsigned long"

/-- Spec-side description: the replacement text of `__PTRDIFF_TYPE__`
(mirrors the signedness of the size type). -/
def specPtrdiffType (ptr lng : WidthBytes) (os : OSFamily) : String :=
  if ptr = WidthBytes.w4 then
    (if os = OSFamily.openbsd then "long" else "int")
  else if lng = WidthBytes.w4 then "long long"
  else "long"

/-- Spec-side description: the replacement text of `__INT64_TYPE__`
(`long long` on 32-bit and LLP64 targets; on LP64 targets `long` on Linux
and `long long` elsewhere). -/
def specInt64Type (ptr lng : WidthBytes) (os : OSFamily) : String :=
  if ptr = WidthBytes.w4 then "long long"
  else if lng = WidthBytes.w4 then "long long"
  else if os = OSFamily.linux then "long" else "long long"

/-- Spec-side description: which data-model macro the branch sets. -/
def specWidthMacro (ptr lng : WidthBytes) : CName :=
  if ptr = WidthBytes.w4 then CName.ILP32
  else if lng = WidthBytes.w4 then CName.LLP64
  else CName.LP64

/-- The `__GNUC__` replacement texts per OS family, as actually emitted. -/
def gnucMajorBodies : OSFamily → List String
  | OSFamily.freebsd => ["9"]
  | OSFamily.netbsd => ["4"]
  | OSFamily.openbsd => ["4"]
  | OSFamily.macho => ["4"]
  | _ => []

/-- The `__GNUC_MINOR__` replacement texts per OS family. -/
def gnucMinorBodies : OSFamily → List String
  | OSFamily.freebsd => ["3"]
  | OSFamily.netbsd => ["1"]
  | _ => []

/-- The `__GNUC_PATCHLEVEL__` replacement texts per OS family. -/
def gnucPatchBodies : OSFamily → List String
  | OSFamily.freebsd => ["0"]
  | OSFamily.netbsd => ["0"]
  | _ => []

/-- The pointer value after the `_WIN64` `__builtin_va_arg` runs: the
replacement text executes `ap+=8` (source line 194). -/
def win64VaArgNextAp (ap : Nat) : Nat := ap + 8

/-- The address the `_WIN64` `__builtin_va_arg` reads from: `(ap+=8)-8`,
i.e. the incremented pointer minus 8 (source line 194). -/
def win64VaArgReadAddr (ap : Nat) : Nat := (ap + 8) - 8

/-- The `_WIN64` `__builtin_va_arg` indirection test, translated from
`sizeof(t)>8||(sizeof(t)&(sizeof(t)-1))` (source line 194): the read goes
through an extra pointer dereference exactly when this is true. -/
def win64VaArgIndirect (size : Nat) : Bool :=
  decide (8 < size) || decide (size &&& (size - 1) ≠ 0)

/-- Spec-side notion: `n` is a power of two. -/
def IsPow2 (n : Nat) : Prop := ∃ k, n = 2 ^ k

theorem defCount_append (a b : List Frag) (n : CName) :
    defCount (a ++ b) n = defCount a n + defCount b n := by
  simp [defCount, List.filter_append]

theorem defBodies_append (a b : List Frag) (n : CName) :
    defBodies (a ++ b) n = defBodies a n ++ defBodies b n := by
  simp [defBodies, List.filterMap_append]

theorem defCount_cons_undef (m : CName) (rest : List Frag) (n : CName) :
    defCount (Frag.undef m :: rest) n = defCount rest n := by
  simp [defCount, List.filter_cons, fragDefines]

theorem defCount_cons_ppIfndef (m : CName) (rest : List Frag) (n : CName) :
    defCount (Frag.ppIfndef m :: rest) n = defCount rest n := by
  simp [defCount, List.filter_cons, fragDefines]

theorem defCount_cons_ppEndif (rest : List Frag) (n : CName) :
    defCount (Frag.ppEndif :: rest) n = defCount rest n := by
  simp [defCount, List.filter_cons, fragDefines]

theorem defCount_nil (n : CName) : defCount [] n = 0 := rfl

theorem defBodies_cons_undef (m : CName) (rest : List Frag) (n : CName) :
    defBodies (Frag.undef m :: rest) n = defBodies rest n := by
  simp [defBodies, List.filterMap_cons]

theorem defBodies_cons_ppIfndef (m : CName) (rest : List Frag) (n : CName) :
    defBodies (Frag.ppIfndef m :: rest) n = defBodies rest n := by
  simp [defBodies, List.filterMap_cons]

theorem defBodies_cons_ppEndif (rest : List Frag) (n : CName) :
    defBodies (Frag.ppEndif :: rest) n = defBodies rest n := by
  simp [defBodies, List.filterMap_cons]

theorem defBodies_nil (n : CName) : defBodies [] n = [] := rfl

theorem emit_defCount (t : TargetDescriptor) (n : CName) :
    defCount (emit t) n =
      defCount (sizeTypeFrags t.pointerSize t.longSize t.osFamily) n
      + defCount (intLimitFrags t.longSize t.osFamily) n
      + defCount (stdcFrags t.osFamily) n
      + defCount (osSpoofFrags t.osFamily t.pointerSize t.archFamily) n
      + defCount (derivedFrags t.osFamily) n
      + defCount (builtinMacroFrags t.osFamily) n
      + defCount (vaAbiFrags t.archFamily t.osFamily) n
      + defCount (helperFrags t.osFamily) n
      + defCount (builtinTableFrags t.osFamily t.archFamily t.armEabi) n := by
  simp [emit, emitCore, undefFrags, defCount_append, defCount_cons_undef,
    defCount_cons_ppIfndef, defCount_cons_ppEndif, defCount_nil]
  omega

theorem emit_defBodies (t : TargetDescriptor) (n : CName) :
    defBodies (emit t) n =
      defBodies (sizeTypeFrags t.pointerSize t.longSize t.osFamily) n
      ++ defBodies (intLimitFrags t.longSize t.osFamily) n
      ++ defBodies (stdcFrags t.osFamily) n
      ++ defBodies (osSpoofFrags t.osFamily t.pointerSize t.archFamily) n
      ++ defBodies (derivedFrags t.osFamily) n
      ++ defBodies (builtinMacroFrags t.osFamily) n
      ++ defBodies (vaAbiFrags t.archFamily t.osFamily) n
      ++ defBodies (helperFrags t.osFamily) n
      ++ defBodies (builtinTableFrags t.osFamily t.archFamily t.armEabi) n := by
  simp [emit, emitCore, undefFrags, defBodies_append, defBodies_cons_undef,
    defBodies_cons_ppIfndef, defBodies_cons_ppEndif, defBodies_nil]

/-- The claim-relevant macro names analysed in the per-part lemmas below. -/
def claimNames : List CName :=
  [CName.SIZE_TYPE, CName.PTRDIFF_TYPE, CName.INTPTR_TYPE, CName.ILP32, CName.LLP64,
   CName.LP64, CName.INT64_TYPE, CName.STDC_NO_ATOMICS, CName.STDC_NO_COMPLEX,
   CName.STDC_NO_THREADS, CName.STDC_UTF_16, CName.STDC_UTF_32, CName.GNUC,
   CName.GNUC_MINOR, CName.GNUC_PATCHLEVEL]

theorem sizeTypeFrags_facts (ptr lng : WidthBytes) (os : OSFamily) :
    defBodies (sizeTypeFrags ptr lng os) CName.SIZE_TYPE = [specSizeType ptr lng os]
    ∧ defCount (sizeTypeFrags ptr lng os) CName.SIZE_TYPE = 1
    ∧ defBodies (sizeTypeFrags ptr lng os) CName.PTRDIFF_TYPE = [specPtrdiffType ptr lng os]
    ∧ defCount (sizeTypeFrags ptr lng os) CName.PTRDIFF_TYPE = 1
    ∧ defBodies (sizeTypeFrags ptr lng os) CName.INT64_TYPE = [specInt64Type ptr lng os]
    ∧ defCount (sizeTypeFrags ptr lng os) CName.INT64_TYPE = 1
    ∧ defCount (sizeTypeFrags ptr lng os) CName.ILP32 =
        (if ptr = WidthBytes.w4 then 1 else 0)
    ∧ defCount (sizeTypeFrags ptr lng os) CName.LLP64 =
        (if ptr = WidthBytes.w4 then 0
         else if lng = WidthBytes.w4 then 1 else 0)
    ∧ defCount (sizeTypeFrags ptr lng os) CName.LP64 =
        (if ptr = WidthBytes.w4 then 0
         else if lng = WidthBytes.w4 then 0 else 1)
    ∧ ∀ n ∈ [CName.INTPTR_TYPE, CName.STDC_NO_ATOMICS, CName.STDC_NO_COMPLEX,
         CName.STDC_NO_THREADS, CName.STDC_UTF_16, CName.STDC_UTF_32, CName.GNUC,
         CName.GNUC_MINOR, CName.GNUC_PATCHLEVEL],
         defCount (sizeTypeFrags ptr lng os) n = 0
         ∧ defBodies (sizeTypeFrags ptr lng os) n = [] := by
  cases ptr <;> cases lng <;> cases os <;> decide

theorem intLimitFrags_facts (lng : WidthBytes) (os : OSFamily) :
    ∀ n ∈ claimNames,
      defCount (intLimitFrags lng os) n = 0 ∧ defBodies (intLimitFrags lng os) n = [] := by
  cases lng <;> cases os <;> decide

theorem stdcFrags_facts (os : OSFamily) :
    defBodies (stdcFrags os) CName.STDC_NO_ATOMICS = ["1"]
    ∧ defCount (stdcFrags os) CName.STDC_NO_ATOMICS = 1
    ∧ defBodies (stdcFrags os) CName.STDC_NO_COMPLEX = ["1"]
    ∧ defCount (stdcFrags os) CName.STDC_NO_COMPLEX = 1
    ∧ defBodies (stdcFrags os) CName.STDC_NO_THREADS = ["1"]
    ∧ defCount (stdcFrags os) CName.STDC_NO_THREADS = 1
    ∧ defBodies (stdcFrags os) CName.STDC_UTF_16 =
        (if os = OSFamily.windowsPE then [] else ["1"])
    ∧ defCount (stdcFrags os) CName.STDC_UTF_16 =
        (if os = OSFamily.windowsPE then 0 else 1)
    ∧ defBodies (stdcFrags os) CName.STDC_UTF_32 =
        (if os = OSFamily.windowsPE then [] else ["1"])
    ∧ defCount (stdcFrags os) CName.STDC_UTF_32 =
        (if os = OSFamily.windowsPE then 0 else 1)
    ∧ ∀ n ∈ [CName.SIZE_TYPE, CName.PTRDIFF_TYPE, CName.INTPTR_TYPE, CName.ILP32,
         CName.LLP64, CName.LP64, CName.INT64_TYPE, CName.GNUC, CName.GNUC_MINOR,
         CName.GNUC_PATCHLEVEL],
         defCount (stdcFrags os) n = 0 ∧ defBodies (stdcFrags os) n = [] := by
  cases os <;> decide

theorem osSpoofFrags_facts (os : OSFamily) (ptr : WidthBytes) (arch : ArchFamily) :
    defBodies (osSpoofFrags os ptr arch) CName.GNUC = gnucMajorBodies os
    ∧ defCount (osSpoofFrags os ptr arch) CName.GNUC = (gnucMajorBodies os).length
    ∧ defBodies (osSpoofFrags os ptr arch) CName.GNUC_MINOR = gnucMinorBodies os
    ∧ defCount (osSpoofFrags os ptr arch) CName.GNUC_MINOR = (gnucMinorBodies os).length
    ∧ defBodies (osSpoofFrags os ptr arch) CName.GNUC_PATCHLEVEL = gnucPatchBodies os
    ∧ defCount (osSpoofFrags os ptr arch) CName.GNUC_PATCHLEVEL = (gnucPatchBodies os).length
    ∧ ∀ n ∈ [CName.SIZE_TYPE, CName.PTRDIFF_TYPE, CName.INTPTR_TYPE, CName.ILP32,
         CName.LLP64, CName.LP64, CName.INT64_TYPE, CName.STDC_NO_ATOMICS,
         CName.STDC_NO_COMPLEX, CName.STDC_NO_THREADS, CName.STDC_UTF_16,
         CName.STDC_UTF_32],
         defCount (osSpoofFrags os ptr arch) n = 0
         ∧ defBodies (osSpoofFrags os ptr arch) n = [] := by
  cases os <;> cases ptr <;> cases arch <;> decide

theorem derivedFrags_facts (os : OSFamily) :
    defCount (derivedFrags os) CName.INTPTR_TYPE =
      (if os = OSFamily.netbsd then 0 else 1)
    ∧ defBodies (derivedFrags os) CName.INTPTR_TYPE =
      (if os = OSFamily.netbsd then [] else ["__PTRDIFF_TYPE__"])
    ∧ ∀ n ∈ [CName.SIZE_TYPE, CName.PTRDIFF_TYPE, CName.ILP32, CName.LLP64, CName.LP64,
         CName.INT64_TYPE, CName.STDC_NO_ATOMICS, CName.STDC_NO_COMPLEX,
         CName.STDC_NO_THREADS, CName.STDC_UTF_16, CName.STDC_UTF_32, CName.GNUC,
         CName.GNUC_MINOR, CName.GNUC_PATCHLEVEL],
         defCount (derivedFrags os) n = 0 ∧ defBodies (derivedFrags os) n = [] := by
  cases os <;> decide

theorem builtinMacroFrags_facts (os : OSFamily) :
    ∀ n ∈ claimNames,
      defCount (builtinMacroFrags os) n = 0 ∧ defBodies (builtinMacroFrags os) n = [] := by
  cases os <;> decide

theorem vaAbiFrags_facts (arch : ArchFamily) (os : OSFamily) :
    ∀ n ∈ claimNames,
      defCount (vaAbiFrags arch os) n = 0 ∧ defBodies (vaAbiFrags arch os) n = [] := by
  cases arch <;> cases os <;> decide

theorem helperFrags_facts (os : OSFamily) :
    ∀ n ∈ claimNames,
      defCount (helperFrags os) n = 0 ∧ defBodies (helperFrags os) n = [] := by
  cases os <;> decide

theorem builtinTableFrags_facts (os : OSFamily) (arch : ArchFamily) (eabi : Bool) :
    ∀ n ∈ claimNames,
      defCount (builtinTableFrags os arch eabi) n = 0
      ∧ defBodies (builtinTableFrags os arch eabi) n = [] := by
  cases os <;> cases arch <;> cases eabi <;> decide

theorem scanFrom_append (s : List CName) (a b : List Frag) :
    scanFrom s (a ++ b) = (scanFrom s a && scanFrom (a.foldl (fun x f => pushDef f x) s) b) := by
  induction a generalizing s with
  | nil => simp [scanFrom]
  | cons f rest ih =>
      simp [scanFrom, ih (pushDef f s), Bool.and_assoc]

theorem pushAll_mem (s : List CName) (a : List Frag) (n : CName) :
    n ∈ a.foldl (fun x f => pushDef f x) s ↔ n ∈ introducedNames a ∨ n ∈ s := by
  induction a generalizing s with
  | nil => simp [introducedNames]
  | cons f rest ih =>
      rw [List.foldl_cons, ih (pushDef f s)]
      simp only [introducedNames, List.flatMap_cons, List.mem_append, pushDef]
      tauto

theorem scanFrom_mono (s s' : List CName) (fs : List Frag)
    (hsub : ∀ n, n ∈ s → n ∈ s') (h : scanFrom s fs = true) : scanFrom s' fs = true := by
  induction fs generalizing s s' with
  | nil => simp [scanFrom]
  | cons f rest ih =>
      simp only [scanFrom, Bool.and_eq_true, List.all_eq_true] at h ⊢
      obtain ⟨h1, h2⟩ := h
      refine ⟨fun n hn => ?_, ?_⟩
      · rcases Bool.or_eq_true _ _ |>.mp (h1 n hn) with he | hs
        · exact Bool.or_eq_true _ _ |>.mpr (Or.inl he)
        · exact Bool.or_eq_true _ _ |>.mpr (Or.inr (by
            exact decide_eq_true (hsub n (of_decide_eq_true hs))))
      · exact ih (pushDef f s) (pushDef f s')
          (fun n hn => by
            simp only [pushDef, List.mem_append] at hn ⊢
            rcases hn with h | h
            · exact Or.inl h
            · exact Or.inr (hsub n h)) h2

theorem scan_sizeType (ptr lng : WidthBytes) (os : OSFamily) (s : List CName) :
    scanFrom s (sizeTypeFrags ptr lng os) = true := by
  refine scanFrom_mono [] s _ (fun n hn => absurd hn (List.not_mem_nil n)) ?_
  cases ptr <;> cases lng <;> cases os <;> decide

theorem scan_intLimit (lng : WidthBytes) (os : OSFamily) (s : List CName) :
    scanFrom s (intLimitFrags lng os) = true := by
  refine scanFrom_mono [] s _ (fun n hn => absurd hn (List.not_mem_nil n)) ?_
  cases lng <;> cases os <;> decide

theorem scan_stdc (os : OSFamily) (s : List CName) :
    scanFrom s (stdcFrags os) = true := by
  refine scanFrom_mono [] s _ (fun n hn => absurd hn (List.not_mem_nil n)) ?_
  cases os <;> decide

theorem scan_osSpoof (os : OSFamily) (ptr : WidthBytes) (arch : ArchFamily) (s : List CName) :
    scanFrom s (osSpoofFrags os ptr arch) = true := by
  refine scanFrom_mono [] s _ (fun n hn => absurd hn (List.not_mem_nil n)) ?_
  cases os <;> cases ptr <;> cases arch <;> decide

theorem scan_derived (os : OSFamily) (s : List CName)
    (h : CName.PTRDIFF_TYPE ∈ s) :
    scanFrom s (derivedFrags os) = true := by
  refine scanFrom_mono [CName.PTRDIFF_TYPE] s _ (fun n hn => ?_) ?_
  · simp only [List.mem_cons, List.not_mem_nil, or_false] at hn
    exact hn ▸ h
  · cases os <;> decide

theorem scan_builtinMacro (os : OSFamily) (s : List CName)
    (h : CName.SIZE_TYPE ∈ s) :
    scanFrom s (builtinMacroFrags os) = true := by
  refine scanFrom_mono [CName.SIZE_TYPE] s _ (fun n hn => ?_) ?_
  · simp only [List.mem_cons, List.not_mem_nil, or_false] at hn
    exact hn ▸ h
  · cases os <;> decide

theorem scan_vaAbi (arch : ArchFamily) (os : OSFamily) (s : List CName) :
    scanFrom s (vaAbiFrags arch os) = true := by
  refine scanFrom_mono [] s _ (fun n hn => absurd hn (List.not_mem_nil n)) ?_
  cases arch <;> cases os <;> decide

theorem scan_helper (os : OSFamily) (s : List CName) :
    scanFrom s (helperFrags os) = true := by
  refine scanFrom_mono [] s _ (fun n hn => absurd hn (List.not_mem_nil n)) ?_
  cases os <;> decide

theorem scan_table (os : OSFamily) (arch : ArchFamily) (eabi : Bool) (s : List CName)
    (h1 : CName.SIZE_TYPE ∈ s) (h2 : CName.BOTH ∈ s) (h3 : CName.BOUND ∈ s)
    (h4 : CName.BUILTIN ∈ s) :
    scanFrom s (builtinTableFrags os arch eabi) = true := by
  refine scanFrom_mono [CName.SIZE_TYPE, CName.BOTH, CName.BOUND, CName.BUILTIN] s _
    (fun n hn => ?_) ?_
  · simp only [List.mem_cons, List.not_mem_nil, or_false] at hn
    rcases hn with rfl | rfl | rfl | rfl <;> assumption
  · cases os <;> cases arch <;> cases eabi <;> decide

theorem intro_sizeType (ptr lng : WidthBytes) (os : OSFamily) :
    CName.SIZE_TYPE ∈ introducedNames (sizeTypeFrags ptr lng os)
    ∧ CName.PTRDIFF_TYPE ∈ introducedNames (sizeTypeFrags ptr lng os) := by
  cases ptr <;> cases lng <;> cases os <;> decide

theorem intro_helper (os : OSFamily) :
    CName.BOTH ∈ introducedNames (helperFrags os)
    ∧ CName.BOUND ∈ introducedNames (helperFrags os)
    ∧ CName.BUILTIN ∈ introducedNames (helperFrags os) := by
  cases os <;> decide

theorem scan_guard (s : List CName) :
    scanFrom s [Frag.ppIfndef CName.TCC_PP] = true := by
  simp [scanFrom, fragUses]

theorem scan_undefs (s : List CName) : scanFrom s undefFrags = true := by
  simp [scanFrom, undefFrags, fragUses]

theorem scan_endif (s : List CName) : scanFrom s [Frag.ppEndif] = true := by
  simp [scanFrom, fragUses]

theorem mem_pushAll_intro {n : CName} {s : List CName} (a : List Frag)
    (h : n ∈ introducedNames a) :
    n ∈ a.foldl (fun x f => pushDef f x) s :=
  (pushAll_mem s a n).mpr (Or.inl h)

theorem introducedNames_append (a b : List Frag) :
    introducedNames (a ++ b) = introducedNames a ++ introducedNames b := by
  simp [introducedNames]

theorem noForwardRef_emit (t : TargetDescriptor) : noForwardRef (emit t) = true := by
  have hsize : CName.SIZE_TYPE ∈
      introducedNames (sizeTypeFrags t.pointerSize t.longSize t.osFamily) :=
    (intro_sizeType t.pointerSize t.longSize t.osFamily).1
  have hptr : CName.PTRDIFF_TYPE ∈
      introducedNames (sizeTypeFrags t.pointerSize t.longSize t.osFamily) :=
    (intro_sizeType t.pointerSize t.longSize t.osFamily).2
  have hboth := (intro_helper t.osFamily).1
  have hbound := (intro_helper t.osFamily).2.1
  have hbuiltin := (intro_helper t.osFamily).2.2
  simp only [noForwardRef, emit, emitCore, scanFrom_append, Bool.and_eq_true]
  and_intros
  · exact scan_sizeType _ _ _ _
  · exact scan_intLimit _ _ _
  · exact scan_stdc _ _
  · exact scan_osSpoof _ _ _ _
  · refine scan_derived _ _ ?_
    apply mem_pushAll_intro
    simp only [introducedNames_append, List.mem_append]
    exact Or.inl (Or.inl (Or.inl hptr))
  · exact scan_guard _
  · refine scan_builtinMacro _ _ ?_
    apply mem_pushAll_intro
    simp only [introducedNames_append, List.mem_append]
    exact Or.inl (Or.inl (Or.inl (Or.inl (Or.inl hsize))))
  · exact scan_vaAbi _ _ _
  · exact scan_helper _ _
  · refine scan_table _ _ _ _ ?_ ?_ ?_ ?_
    · apply mem_pushAll_intro
      simp only [introducedNames_append, List.mem_append]
      exact Or.inl (Or.inl (Or.inl (Or.inl (Or.inl (Or.inl (Or.inl (Or.inl hsize)))))))
    · exact mem_pushAll_intro _ (by
        simp only [introducedNames_append, List.mem_append]
        exact Or.inr hboth)
    · exact mem_pushAll_intro _ (by
        simp only [introducedNames_append, List.mem_append]
        exact Or.inr hbound)
    · exact mem_pushAll_intro _ (by
        simp only [introducedNames_append, List.mem_append]
        exact Or.inr hbuiltin)
  · exact scan_undefs _
  · exact scan_endif _

theorem envDisjoint_append (a b : List Frag) :
    environmentDisjoint (a ++ b) = (environmentDisjoint a && environmentDisjoint b) := by
  simp [environmentDisjoint, introducedNames, List.flatMap_append, List.all_append]

theorem envd_sizeType (ptr lng : WidthBytes) (os : OSFamily) :
    environmentDisjoint (sizeTypeFrags ptr lng os) = true := by
  cases ptr <;> cases lng <;> cases os <;> decide

theorem envd_intLimit (lng : WidthBytes) (os : OSFamily) :
    environmentDisjoint (intLimitFrags lng os) = true := by
  cases lng <;> cases os <;> decide

theorem envd_stdc (os : OSFamily) : environmentDisjoint (stdcFrags os) = true := by
  cases os <;> decide

theorem envd_osSpoof (os : OSFamily) (ptr : WidthBytes) (arch : ArchFamily) :
    environmentDisjoint (osSpoofFrags os ptr arch) = true := by
  cases os <;> cases ptr <;> cases arch <;> decide

theorem envd_derived (os : OSFamily) : environmentDisjoint (derivedFrags os) = true := by
  cases os <;> decide

theorem envd_builtinMacro (os : OSFamily) :
    environmentDisjoint (builtinMacroFrags os) = true := by
  cases os <;> decide

theorem envd_vaAbi (arch : ArchFamily) (os : OSFamily) :
    environmentDisjoint (vaAbiFrags arch os) = true := by
  cases arch <;> cases os <;> decide

theorem envd_helper (os : OSFamily) : environmentDisjoint (helperFrags os) = true := by
  cases os <;> decide

theorem envd_table (os : OSFamily) (arch : ArchFamily) (eabi : Bool) :
    environmentDisjoint (builtinTableFrags os arch eabi) = true := by
  cases os <;> cases arch <;> cases eabi <;> decide

theorem envd_cons_guard (rest : List Frag) :
    environmentDisjoint (Frag.ppIfndef CName.TCC_PP :: rest) = environmentDisjoint rest := by
  simp [environmentDisjoint, introducedNames, fragIntroduces]

theorem envd_undefs : environmentDisjoint undefFrags = true := by decide

theorem envd_endif : environmentDisjoint [Frag.ppEndif] = true := by decide

theorem environmentDisjoint_emit (t : TargetDescriptor) :
    environmentDisjoint (emit t) = true := by
  simp [emit, emitCore, envDisjoint_append, envd_sizeType, envd_intLimit, envd_stdc,
    envd_osSpoof, envd_derived, envd_builtinMacro, envd_vaAbi, envd_helper, envd_table,
    envd_cons_guard, envd_undefs, envd_endif]

theorem undefs_clear (n : CName) (hn : n ∈ helperMacroNames) (b0 : Bool) :
    List.foldl (macroStep n) b0 undefFrags = false := by
  simp only [helperMacroNames, List.mem_cons, List.not_mem_nil, or_false] at hn
  rcases hn with rfl | rfl | rfl | rfl | rfl | rfl <;>
    simp [undefFrags, macroStep]

theorem definedAtEnd_emit (t : TargetDescriptor) (n : CName) (hn : n ∈ helperMacroNames) :
    definedAtEnd (emit t) n = false := by
  rw [definedAtEnd, emit, List.foldl_append, List.foldl_append, undefs_clear n hn]
  simp [macroStep]

theorem emit_claim_facts (t : TargetDescriptor) :
    defBodies (emit t) CName.SIZE_TYPE =
        [specSizeType t.pointerSize t.longSize t.osFamily]
    ∧ defCount (emit t) CName.SIZE_TYPE = 1
    ∧ defBodies (emit t) CName.PTRDIFF_TYPE =
        [specPtrdiffType t.pointerSize t.longSize t.osFamily]
    ∧ defCount (emit t) CName.PTRDIFF_TYPE = 1
    ∧ defBodies (emit t) CName.INT64_TYPE =
        [specInt64Type t.pointerSize t.longSize t.osFamily]
    ∧ defCount (emit t) CName.INT64_TYPE = 1
    ∧ defCount (emit t) CName.ILP32 =
        (if t.pointerSize = WidthBytes.w4 then 1 else 0)
    ∧ defCount (emit t) CName.LLP64 =
        (if t.pointerSize = WidthBytes.w4 then 0
         else if t.longSize = WidthBytes.w4 then 1 else 0)
    ∧ defCount (emit t) CName.LP64 =
        (if t.pointerSize = WidthBytes.w4 then 0
         else if t.longSize = WidthBytes.w4 then 0 else 1)
    ∧ defCount (emit t) CName.INTPTR_TYPE =
        (if t.osFamily = OSFamily.netbsd then 0 else 1)
    ∧ defBodies (emit t) CName.INTPTR_TYPE =
        (if t.osFamily = OSFamily.netbsd then [] else ["__PTRDIFF_TYPE__"])
    ∧ defBodies (emit t) CName.STDC_NO_ATOMICS = ["1"]
    ∧ defCount (emit t) CName.STDC_NO_ATOMICS = 1
    ∧ defBodies (emit t) CName.STDC_NO_COMPLEX = ["1"]
    ∧ defCount (emit t) CName.STDC_NO_COMPLEX = 1
    ∧ defBodies (emit t) CName.STDC_NO_THREADS = ["1"]
    ∧ defCount (emit t) CName.STDC_NO_THREADS = 1
    ∧ defBodies (emit t) CName.STDC_UTF_16 =
        (if t.osFamily = OSFamily.windowsPE then [] else ["1"])
    ∧ defCount (emit t) CName.STDC_UTF_16 =
        (if t.osFamily = OSFamily.windowsPE then 0 else 1)
    ∧ defBodies (emit t) CName.STDC_UTF_32 =
        (if t.osFamily = OSFamily.windowsPE then [] else ["1"])
    ∧ defCount (emit t) CName.STDC_UTF_32 =
        (if t.osFamily = OSFamily.windowsPE then 0 else 1)
    ∧ defBodies (emit t) CName.GNUC = gnucMajorBodies t.osFamily
    ∧ defCount (emit t) CName.GNUC = (gnucMajorBodies t.osFamily).length
    ∧ defBodies (emit t) CName.GNUC_MINOR = gnucMinorBodies t.osFamily
    ∧ defCount (emit t) CName.GNUC_MINOR = (gnucMinorBodies t.osFamily).length
    ∧ defBodies (emit t) CName.GNUC_PATCHLEVEL = gnucPatchBodies t.osFamily
    ∧ defCount (emit t) CName.GNUC_PATCHLEVEL = (gnucPatchBodies t.osFamily).length := by
  obtain ⟨hsb, hsc, hpb, hpc, hib, hic, hilp, hllp, hlp, hsz⟩ :=
    sizeTypeFrags_facts t.pointerSize t.longSize t.osFamily
  have hil := intLimitFrags_facts t.longSize t.osFamily
  obtain ⟨ha1, ha2, hc1, hc2, ht1, ht2, hu1b, hu1c, hu2b, hu2c, hstz⟩ :=
    stdcFrags_facts t.osFamily
  obtain ⟨hg1, hg2, hm1, hm2, hpa1, hpa2, hosz⟩ :=
    osSpoofFrags_facts t.osFamily t.pointerSize t.archFamily
  obtain ⟨hd1, hd2, hdz⟩ := derivedFrags_facts t.osFamily
  have hbm := builtinMacroFrags_facts t.osFamily
  have hva := vaAbiFrags_facts t.archFamily t.osFamily
  have hh := helperFrags_facts t.osFamily
  have hbt := builtinTableFrags_facts t.osFamily t.archFamily t.armEabi
  refine ⟨?_, ?_, ?_, ?_, ?_, ?_, ?_, ?_, ?_, ?_, ?_, ?_, ?_, ?_, ?_, ?_, ?_, ?_, ?_,
    ?_, ?_, ?_, ?_, ?_, ?_, ?_, ?_⟩ <;>
    first
    | (rw [emit_defBodies]
       simp +decide [hsb, hpb, hib, hd2, ha1, hc1, ht1, hu1b, hu2b, hg1, hm1, hpa1,
         hsz, hil, hstz, hosz, hdz, hbm, hva, hh, hbt])
    | (rw [emit_defCount]
       simp +decide [hsc, hpc, hic, hilp, hllp, hlp, hd1, ha2, hc2, ht2, hu1c, hu2c,
         hg2, hm2, hpa2, hsz, hil, hstz, hosz, hdz, hbm, hva, hh, hbt])

theorem isPow2_le8 (s : Nat) (h : s ≤ 8) :
    IsPow2 s ↔ s = 1 ∨ s = 2 ∨ s = 4 ∨ s = 8 := by
  constructor
  · rintro ⟨k, rfl⟩
    have hk : k ≤ 3 := by
      by_contra hgt
      push_neg at hgt
      have h16 : 2 ^ 4 ≤ 2 ^ k := Nat.pow_le_pow_right (by norm_num) hgt
      norm_num at h16
      omega
    interval_cases k <;> norm_num
  · rintro (rfl | rfl | rfl | rfl)
    · exact ⟨0, rfl⟩
    · exact ⟨1, rfl⟩
    · exact ⟨2, rfl⟩
    · exact ⟨3, rfl⟩

theorem win64_indirect_iff (s : Nat) (h1 : 1 ≤ s) :
    win64VaArgIndirect s = true ↔ 8 < s ∨ ¬ IsPow2 s := by
  by_cases h8 : 8 < s
  · simp [win64VaArgIndirect, h8]
  · push_neg at h8
    rw [isPow2_le8 s h8]
    interval_cases s <;> decide

/-- C1 counterexample: on a NetBSD target (here ARM64/NetBSD/64-bit), the
emitted text never defines `__INTPTR_TYPE__` — the host-level
`#ifndef TARGETOS_NetBSD` guard (source lines 140-143) omits it — refuting
the claim that every supported configuration defines all three of
`__SIZE_TYPE__`, `__PTRDIFF_TYPE__`, `__INTPTR_TYPE__`. -/
theorem C1_counterexample :
    defCount (emit ⟨ArchFamily.arm64, OSFamily.netbsd, WidthBytes.w8, WidthBytes.w8, false⟩)
      CName.INTPTR_TYPE = 0 := by
  decide

/-- C1 (amended): for every target configuration the emitted text defines
`__SIZE_TYPE__` and `__PTRDIFF_TYPE__` exactly once, and defines
`__INTPTR_TYPE__` exactly once except on NetBSD, where it is omitted
entirely (never defined twice). -/
theorem C1_amended (t : TargetDescriptor) :
    defCount (emit t) CName.SIZE_TYPE = 1
    ∧ defCount (emit t) CName.PTRDIFF_TYPE = 1
    ∧ defCount (emit t) CName.INTPTR_TYPE =
        (if t.osFamily = OSFamily.netbsd then 0 else 1) := by
  obtain ⟨_, h1, _, h2, _, _, _, _, _, h3, _⟩ := emit_claim_facts t
  exact ⟨h1, h2, h3⟩

/-- C2 counterexample: on the RISCV64 target, some emitted fragment (the
`__builtin_va_arg` definition, source line 221) references the typedef name
`va_list`, yet no fragment of the emitted text ever introduces `va_list` —
so that use is not preceded by any definition in the same text, refuting the
claim that every macro or typedef name used in a later fragment has already
been defined by an earlier fragment. -/
theorem C2_counterexample :
    ((emit ⟨ArchFamily.riscv64, OSFamily.linux, WidthBytes.w8, WidthBytes.w8, false⟩).any
        (fun f => decide (CName.va_list ∈ fragUses f)) = true)
    ∧ ((emit ⟨ArchFamily.riscv64, OSFamily.linux, WidthBytes.w8, WidthBytes.w8, false⟩).all
        (fun f => decide (CName.va_list ∉ fragIntroduces f)) = true) := by
  decide

/-- C2 (amended): scanning the emitted text top to bottom, every identifier
a fragment references is either introduced by an earlier fragment of the
same text or belongs to the fixed set of environment-supplied names
(compiler builtins such as `__alignof__`/`__builtin_frame_address`, the
`__STDC_VERSION__` test, attribute/asm keywords, and the stdarg typedef
`va_list` referenced by the RISCV64 va-arg macro); the text itself never
introduces any of those environment names. -/
theorem C2_amended (t : TargetDescriptor) :
    noForwardRef (emit t) = true ∧ environmentDisjoint (emit t) = true :=
  ⟨noForwardRef_emit t, environmentDisjoint_emit t⟩

/-- C3: the fundamental-type macros follow the first-match decision table:
the emitted `__SIZE_TYPE__`/`__PTRDIFF_TYPE__`/`__INT64_TYPE__` bodies equal
the spec-side table (`specSizeType` etc.); on 32-bit targets the size type is
`unsigned long` on OpenBSD and `unsigned int` elsewhere with `__PTRDIFF_TYPE__`
mirroring the signedness, `__ILP32__` set and `__INT64_TYPE__` `long long`;
otherwise `longSize == 4` gives `unsigned long long` and `__LLP64__`;
otherwise `unsigned long` and `__LP64__`; and exactly one of
`__ILP32__`/`__LLP64__`/`__LP64__` is defined. -/
theorem C3_decision_table (t : TargetDescriptor) :
    defBodies (emit t) CName.SIZE_TYPE =
        [specSizeType t.pointerSize t.longSize t.osFamily]
    ∧ defBodies (emit t) CName.PTRDIFF_TYPE =
        [specPtrdiffType t.pointerSize t.longSize t.osFamily]
    ∧ defBodies (emit t) CName.INT64_TYPE =
        [specInt64Type t.pointerSize t.longSize t.osFamily]
    ∧ (t.pointerSize = WidthBytes.w4 →
        specSizeType t.pointerSize t.longSize t.osFamily =
          (if t.osFamily = OSFamily.openbsd then "unsigned long" else "unsigned int")
        ∧ specPtrdiffType t.pointerSize t.longSize t.osFamily =
          (if t.osFamily = OSFamily.openbsd then "long" else "int")
        ∧ specInt64Type t.pointerSize t.longSize t.osFamily = "long long"
        ∧ defCount (emit t) CName.ILP32 = 1)
    ∧ (t.pointerSize ≠ WidthBytes.w4 → t.longSize = WidthBytes.w4 →
        specSizeType t.pointerSize t.longSize t.osFamily = "unsigned long long"
        ∧ defCount (emit t) CName.LLP64 = 1)
    ∧ (t.pointerSize ≠ WidthBytes.w4 → t.longSize ≠ WidthBytes.w4 →
        specSizeType t.pointerSize t.longSize t.osFamily = "unsigned long"
        ∧ defCount (emit t) CName.LP64 = 1)
    ∧ defCount (emit t) CName.ILP32 + defCount (emit t) CName.LLP64
        + defCount (emit t) CName.LP64 = 1 := by
  obtain ⟨h1, _, h2, _, h3, _, hi, hl, hp, _⟩ := emit_claim_facts t
  refine ⟨h1, h2, h3, ?_, ?_, ?_, ?_⟩
  · intro hw
    refine ⟨?_, ?_, ?_, ?_⟩
    · simp [specSizeType, hw]
    · simp [specPtrdiffType, hw]
    · simp [specInt64Type, hw]
    · rw [hi]; simp [hw]
  · intro hw hl4
    refine ⟨?_, ?_⟩
    · simp [specSizeType, hw, hl4]
    · rw [hl]; simp [hw, hl4]
  · intro hw hl4
    refine ⟨?_, ?_⟩
    · simp [specSizeType, hw, hl4]
    · rw [hp]; simp [hw, hl4]
  · rw [hi, hl, hp]
    cases hq : t.pointerSize <;> cases hr : t.longSize <;> simp

/-- C3 witness: the 32-bit OpenBSD branch at a concrete descriptor. -/
theorem C3_decision_table_witness :
    specSizeType WidthBytes.w4 WidthBytes.w4 OSFamily.openbsd =
      (if OSFamily.openbsd = OSFamily.openbsd then "unsigned long" else "unsigned int")
    ∧ specPtrdiffType WidthBytes.w4 WidthBytes.w4 OSFamily.openbsd =
      (if OSFamily.openbsd = OSFamily.openbsd then "long" else "int")
    ∧ specInt64Type WidthBytes.w4 WidthBytes.w4 OSFamily.openbsd = "long long"
    ∧ defCount (emit ⟨ArchFamily.i386, OSFamily.openbsd, WidthBytes.w4, WidthBytes.w4, false⟩)
        CName.ILP32 = 1 :=
  (C3_decision_table
    ⟨ArchFamily.i386, OSFamily.openbsd, WidthBytes.w4, WidthBytes.w4, false⟩).2.2.2.1 rfl

/-- C4: on 64-bit targets with 8-byte long, the output defines `__LP64__`
and `__SIZE_TYPE__` as `unsigned long`, and `__INT64_TYPE__` is `long`
exactly on Linux and `long long` on every other such OS. -/
theorem C4_lp64 (t : TargetDescriptor) (hp : t.pointerSize = WidthBytes.w8)
    (hl : t.longSize = WidthBytes.w8) :
    defCount (emit t) CName.LP64 = 1
    ∧ defBodies (emit t) CName.SIZE_TYPE = ["unsigned long"]
    ∧ (t.osFamily = OSFamily.linux →
        defBodies (emit t) CName.INT64_TYPE = ["long"])
    ∧ (t.osFamily ≠ OSFamily.linux →
        defBodies (emit t) CName.INT64_TYPE = ["long long"]) := by
  obtain ⟨h1, _, _, _, h3, _, _, _, hp64, _⟩ := emit_claim_facts t
  refine ⟨?_, ?_, ?_, ?_⟩
  · rw [hp64]; simp [hp, hl]
  · rw [h1]; simp [specSizeType, hp, hl]
  · intro ho; rw [h3]; simp [specInt64Type, hp, hl, ho]
  · intro ho; rw [h3]; simp [specInt64Type, hp, hl, ho]

/-- C4 witness: the Linux x86_64 LP64 scenario of the spec. -/
theorem C4_lp64_witness :
    defCount (emit ⟨ArchFamily.x86_64, OSFamily.linux, WidthBytes.w8, WidthBytes.w8, false⟩)
      CName.LP64 = 1
    ∧ defBodies (emit ⟨ArchFamily.x86_64, OSFamily.linux, WidthBytes.w8, WidthBytes.w8, false⟩)
      CName.INT64_TYPE = ["long"] :=
  ⟨(C4_lp64 ⟨ArchFamily.x86_64, OSFamily.linux, WidthBytes.w8, WidthBytes.w8, false⟩
      rfl rfl).1,
   (C4_lp64 ⟨ArchFamily.x86_64, OSFamily.linux, WidthBytes.w8, WidthBytes.w8, false⟩
      rfl rfl).2.2.1 rfl⟩

/-- C5 counterexample: on x86_64/Linux (a non-PE x86_64 target) with bounds
checking enabled, malloc is routed through `__MAYBE_REDIR = __BUILTIN`
(native malloc redirection, source line 278), so only the single
`__builtin_malloc` declaration bound to the plain `malloc` symbol is
emitted — not an aliased pair renamed to `__bound_malloc` — refuting the
claim as stated for x86_64/non-PE targets. -/
theorem C5_counterexample :
    mallocDecls ArchFamily.x86_64 OSFamily.linux false true false =
      [⟨"void*", "__builtin_malloc", "(__SIZE_TYPE__)", "malloc"⟩] := by
  decide

/-- C5 (amended): for x86_64 non-PE targets *other than Linux and macOS*,
bounds checking enabled yields the aliased pair (`__builtin_malloc` and
`malloc`, both renamed to the instrumented `__bound_malloc` symbol); on
Linux and macOS only the internal `__builtin_malloc` alias bound to plain
`malloc` is emitted regardless of bounds checking; and with bounds checking
disabled every x86_64 non-PE target gets only the single declaration bound
to the plain `malloc` symbol. -/
theorem C5_amended (t : TargetDescriptor) (bc lead : Bool)
    (ha : t.archFamily = ArchFamily.x86_64)
    (hpe : t.osFamily ≠ OSFamily.windowsPE) :
    ((t.osFamily ≠ OSFamily.linux ∧ t.osFamily ≠ OSFamily.macho) →
      mallocDecls t.archFamily t.osFamily t.armEabi true lead =
        [⟨"void*", "__builtin_malloc", "(__SIZE_TYPE__)", RENAMEsem lead "__bound_malloc"⟩,
         ⟨"void*", "malloc", "(__SIZE_TYPE__)", RENAMEsem lead "__bound_malloc"⟩])
    ∧ ((t.osFamily = OSFamily.linux ∨ t.osFamily = OSFamily.macho) →
      mallocDecls t.archFamily t.osFamily t.armEabi bc lead =
        [⟨"void*", "__builtin_malloc", "(__SIZE_TYPE__)", RENAMEsem lead "malloc"⟩])
    ∧ mallocDecls t.archFamily t.osFamily t.armEabi false lead =
        [⟨"void*", "__builtin_malloc", "(__SIZE_TYPE__)", RENAMEsem lead "malloc"⟩] := by
  obtain ⟨a, o, p, l, e⟩ := t
  subst ha
  dsimp only at hpe ⊢
  cases o <;> first
    | exact absurd rfl hpe
    | (cases e <;> cases bc <;> cases lead <;> decide)

/-- C5 witness: FreeBSD x86_64 with bounds checking on yields the aliased
pair bound to `__bound_malloc`. -/
theorem C5_amended_witness :
    mallocDecls ArchFamily.x86_64 OSFamily.freebsd false true false =
      [⟨"void*", "__builtin_malloc", "(__SIZE_TYPE__)", "__bound_malloc"⟩,
       ⟨"void*", "malloc", "(__SIZE_TYPE__)", "__bound_malloc"⟩] :=
  (C5_amended ⟨ArchFamily.x86_64, OSFamily.freebsd, WidthBytes.w8, WidthBytes.w8, false⟩
    true false rfl (by decide)).1 (by decide)

/-- C6: on the x86_64 Windows/PE target, `__builtin_va_list` is typedef'd
to the plain byte pointer `char*`, and the emitted `__builtin_va_arg`
replacement advances the pointer by exactly 8 bytes per argument, reading
at the pre-increment position, with one extra level of pointer indirection
exactly when the argument size exceeds 8 bytes or is not a power of two. -/
theorem C6_win64_vaarg (t : TargetDescriptor)
    (ha : t.archFamily = ArchFamily.x86_64)
    (ho : t.osFamily = OSFamily.windowsPE) :
    Frag.typedefFrag CName.builtin_va_list "char*" [] ∈ emit t
    ∧ Frag.defF CName.builtin_va_arg ["ap", "t"]
        "((sizeof(t)>8||(sizeof(t)&(sizeof(t)-1)))?**(t**)((ap+=8)-8):*(t*)((ap+=8)-8))"
        [] ∈ emit t
    ∧ (∀ ap, win64VaArgNextAp ap = ap + 8 ∧ win64VaArgReadAddr ap = ap)
    ∧ (∀ s, 1 ≤ s → (win64VaArgIndirect s = true ↔ 8 < s ∨ ¬ IsPow2 s)) := by
  obtain ⟨a, o, p, l, e⟩ := t
  subst ha
  subst ho
  refine ⟨?_, ?_, fun ap => ⟨rfl, Nat.add_sub_cancel ap 8⟩, fun s hs => win64_indirect_iff s hs⟩ <;>
    (cases p <;> cases l <;> cases e <;> decide)

/-- C6 witness: the PE x86_64 fragments at a concrete descriptor, and the
indirection test at size 16 (greater than 8) and size 4 (a small power of
two, accessed directly). -/
theorem C6_win64_vaarg_witness :
    Frag.typedefFrag CName.builtin_va_list "char*" []
      ∈ emit ⟨ArchFamily.x86_64, OSFamily.windowsPE, WidthBytes.w8, WidthBytes.w4, false⟩
    ∧ win64VaArgNextAp 0 = 8
    ∧ (win64VaArgIndirect 16 = true ↔ 8 < 16 ∨ ¬ IsPow2 16)
    ∧ (win64VaArgIndirect 4 = true ↔ 8 < 4 ∨ ¬ IsPow2 4) := by
  have h := C6_win64_vaarg
    ⟨ArchFamily.x86_64, OSFamily.windowsPE, WidthBytes.w8, WidthBytes.w4, false⟩ rfl rfl
  exact ⟨h.1, (h.2.2.1 0).1, h.2.2.2 16 (by norm_num), h.2.2.2 4 (by norm_num)⟩

/-- C9: on Windows/PE with bounds checking disabled the builtin/redirection
block declares nothing: `__BOTH` is `__BOUND`, `__BOUND` expands to nothing
with bounds checking off, `__BUILTIN` expands to nothing on PE, and the
whole post-expansion declaration list is empty. -/
theorem C9_pe_empty (t : TargetDescriptor) (lead : Bool)
    (hpe : t.osFamily = OSFamily.windowsPE) :
    builtinDecls t.archFamily t.osFamily t.armEabi false lead = []
    ∧ (∀ bc ret name params, BOTHsem true bc lead ret name params =
        BOUNDsem bc lead ret name params)
    ∧ (∀ ret name params, BOUNDsem false lead ret name params = [])
    ∧ (∀ ret name params, BUILTINsem true lead ret name params = []) := by
  obtain ⟨a, o, p, l, e⟩ := t
  subst hpe
  dsimp only
  refine ⟨?_, fun bc ret name params => rfl, fun ret name params => rfl,
    fun ret name params => rfl⟩
  cases a <;> cases e <;> cases lead <;> decide

/-- C9 witness: the PE x86_64 descriptor with bounds checking off. -/
theorem C9_pe_empty_witness :
    builtinDecls ArchFamily.x86_64 OSFamily.windowsPE false false false = [] :=
  (C9_pe_empty ⟨ArchFamily.x86_64, OSFamily.windowsPE, WidthBytes.w8, WidthBytes.w4, false⟩
    false rfl).1

/-- C10: for every target configuration, the emitted text ends with the six
`#undef`s of the helper macros immediately after the builtin declaration
table (followed only by the guard-closing `#endif`), and none of the six
helper names remains defined at the end of the text. -/
theorem C10_cleanup (t : TargetDescriptor) :
    (∃ pre, emit t = pre ++ builtinTableFrags t.osFamily t.archFamily t.armEabi
        ++ undefFrags ++ [Frag.ppEndif])
    ∧ undefFrags =
        [Frag.undef CName.BUILTINBC, Frag.undef CName.BUILTIN, Frag.undef CName.BOUND,
         Frag.undef CName.BOTH, Frag.undef CName.MAYBE_REDIR, Frag.undef CName.RENAME]
    ∧ ∀ n ∈ helperMacroNames, definedAtEnd (emit t) n = false := by
  refine ⟨⟨sizeTypeFrags t.pointerSize t.longSize t.osFamily
      ++ intLimitFrags t.longSize t.osFamily
      ++ stdcFrags t.osFamily
      ++ osSpoofFrags t.osFamily t.pointerSize t.archFamily
      ++ derivedFrags t.osFamily
      ++ [Frag.ppIfndef CName.TCC_PP]
      ++ builtinMacroFrags t.osFamily
      ++ vaAbiFrags t.archFamily t.osFamily
      ++ helperFrags t.osFamily, ?_⟩, rfl, fun n hn => definedAtEnd_emit t n hn⟩
  rfl

/-- C7: the emitted text contains a block gated on the emitted conditional
`#if __STDC_VERSION__==201112L` whose body defines `__STDC_NO_ATOMICS__`,
`__STDC_NO_COMPLEX__` and `__STDC_NO_THREADS__` as 1 and defines
`__STDC_UTF_16__`/`__STDC_UTF_32__` exactly on non-PE targets; moreover
those are the only definitions of these names anywhere in the output. -/
theorem C7_strict_c11 (t : TargetDescriptor) :
    (∃ pre mid post,
      emit t = pre ++ ([Frag.ppIf "__STDC_VERSION__==201112L" [CName.STDC_VERSION]]
          ++ mid ++ [Frag.ppEndif]) ++ post
      ∧ Frag.def0 CName.STDC_NO_ATOMICS "1" [] ∈ mid
      ∧ Frag.def0 CName.STDC_NO_COMPLEX "1" [] ∈ mid
      ∧ Frag.def0 CName.STDC_NO_THREADS "1" [] ∈ mid
      ∧ (Frag.def0 CName.STDC_UTF_16 "1" [] ∈ mid ↔ t.osFamily ≠ OSFamily.windowsPE)
      ∧ (Frag.def0 CName.STDC_UTF_32 "1" [] ∈ mid ↔ t.osFamily ≠ OSFamily.windowsPE))
    ∧ defBodies (emit t) CName.STDC_NO_ATOMICS = ["1"]
    ∧ defCount (emit t) CName.STDC_NO_ATOMICS = 1
    ∧ defBodies (emit t) CName.STDC_NO_COMPLEX = ["1"]
    ∧ defCount (emit t) CName.STDC_NO_COMPLEX = 1
    ∧ defBodies (emit t) CName.STDC_NO_THREADS = ["1"]
    ∧ defCount (emit t) CName.STDC_NO_THREADS = 1
    ∧ defBodies (emit t) CName.STDC_UTF_16 =
        (if t.osFamily = OSFamily.windowsPE then [] else ["1"])
    ∧ defCount (emit t) CName.STDC_UTF_16 =
        (if t.osFamily = OSFamily.windowsPE then 0 else 1)
    ∧ defBodies (emit t) CName.STDC_UTF_32 =
        (if t.osFamily = OSFamily.windowsPE then [] else ["1"])
    ∧ defCount (emit t) CName.STDC_UTF_32 =
        (if t.osFamily = OSFamily.windowsPE then 0 else 1) := by
  obtain ⟨_, _, _, _, _, _, _, _, _, _, _, hab, hac, hcb, hcc, htb, htc, hub, huc,
    hvb, hvc, _⟩ := emit_claim_facts t
  refine ⟨?_, hab, hac, hcb, hcc, htb, htc, hub, huc, hvb, hvc⟩
  refine ⟨sizeTypeFrags t.pointerSize t.longSize t.osFamily
      ++ intLimitFrags t.longSize t.osFamily,
    [Frag.def0 CName.STDC_NO_ATOMICS "1" [], Frag.def0 CName.STDC_NO_COMPLEX "1" [],
     Frag.def0 CName.STDC_NO_THREADS "1" []]
    ++ (if t.osFamily = OSFamily.windowsPE then []
        else [Frag.def0 CName.STDC_UTF_16 "1" [], Frag.def0 CName.STDC_UTF_32 "1" []]),
    osSpoofFrags t.osFamily t.pointerSize t.archFamily
      ++ derivedFrags t.osFamily
      ++ [Frag.ppIfndef CName.TCC_PP]
      ++ builtinMacroFrags t.osFamily
      ++ vaAbiFrags t.archFamily t.osFamily
      ++ helperFrags t.osFamily
      ++ builtinTableFrags t.osFamily t.archFamily t.armEabi
      ++ undefFrags ++ [Frag.ppEndif], ?_, ?_, ?_, ?_, ?_, ?_⟩
  · simp [emit, emitCore, stdcFrags, List.append_assoc]
  · simp
  · simp
  · simp
  · by_cases ho : t.osFamily = OSFamily.windowsPE <;> simp [ho]
  · by_cases ho : t.osFamily = OSFamily.windowsPE <;> simp [ho]

/-- C8 counterexample: the Linux OS-identity block emits no `__GNUC__`
macro at all (the `#else /* Linux */` branch, source lines 135-137, is
empty), refuting the claim that every supported OS family receives a fake
`__GNUC__`/`__GNUC_MINOR__` version triple. -/
theorem C8_counterexample :
    defCount (emit ⟨ArchFamily.x86_64, OSFamily.linux, WidthBytes.w8, WidthBytes.w8, false⟩)
      CName.GNUC = 0 := by
  decide

/-- C8 (amended): the OS-identity spoof version macros are fixed per OS
family: FreeBSD gets the full triple 9/3/0 and NetBSD the full triple 4/1/0;
OpenBSD and macOS define only `__GNUC__ 4` with no minor or patchlevel; and
Windows/PE, Android, Linux and the FreeBSD-kernel branch define none of the
three (the values never depend on architecture or word sizes). -/
theorem C8_amended (t : TargetDescriptor) :
    defBodies (emit t) CName.GNUC = gnucMajorBodies t.osFamily
    ∧ defCount (emit t) CName.GNUC = (gnucMajorBodies t.osFamily).length
    ∧ defBodies (emit t) CName.GNUC_MINOR = gnucMinorBodies t.osFamily
    ∧ defCount (emit t) CName.GNUC_MINOR = (gnucMinorBodies t.osFamily).length
    ∧ defBodies (emit t) CName.GNUC_PATCHLEVEL = gnucPatchBodies t.osFamily
    ∧ defCount (emit t) CName.GNUC_PATCHLEVEL = (gnucPatchBodies t.osFamily).length := by
  obtain ⟨_, _, _, _, _, _, _, _, _, _, _, _, _, _, _, _, _, _, _, _, _,
    hg1, hg2, hm1, hm2, hp1, hp2⟩ := emit_claim_facts t
  exact ⟨hg1, hg2, hm1, hm2, hp1, hp2⟩
